import Mathlib

/-!
Verification of the personalization kernel in `backend/main.py`:
scenario matching, the per-user intelligence store, the incremental
preference-learning update rule, and the suggestion re-ranking function.

Python floats are modelled as exact rationals (`ℚ`), Python ints as `ℤ`/`ℕ`,
Python lists as `List`, and the insertion-ordered dicts used for the
scenario catalog and the affinity map as association lists.
-/

/-! ## Signal snapshot (the fields read by `check_trigger`) -/

structure DeviceSignals where
  is_low_end : Bool
  font_scale : ℚ
  color_scheme : String
  reduced_motion : Bool
deriving DecidableEq

structure NetworkSignals where
  type : String
  is_wifi : Bool
deriving DecidableEq

structure ContextSignals where
  language : String
  is_morning : Bool
  is_afternoon : Bool
  is_evening : Bool
  is_night : Bool
  is_weekend : Bool
deriving DecidableEq

structure EnvironmentSignals where
  brightness : ℚ
  volume_level : ℚ
  is_headphones_connected : Bool
deriving DecidableEq

structure AppSignals where
  session_count : ℤ
  storage_available : Option ℤ
  is_first_launch : Bool
deriving DecidableEq

structure ActivitySignals where
  steps_today : Option ℤ
  is_moving : Bool
deriving DecidableEq

structure SocialSignals where
  upcoming_events_count : Option ℤ
  is_busy : Bool
deriving DecidableEq

structure QuestionnaireAnswers where
  primary_use : Option String
  interests : List String
  occupation : Option String
deriving DecidableEq

structure FullSignalPayload where
  device : DeviceSignals
  network : NetworkSignals
  context : ContextSignals
  environment : EnvironmentSignals
  app : AppSignals
  activity : ActivitySignals
  social : SocialSignals
  questionnaire : QuestionnaireAnswers
deriving DecidableEq

/-- The payload built from the pydantic field defaults. -/
def defaultSignals : FullSignalPayload :=
  { device := { is_low_end := false, font_scale := 1, color_scheme := "light",
                reduced_motion := false }
    network := { type := "UNKNOWN", is_wifi := false }
    context := { language := "en", is_morning := false, is_afternoon := true,
                 is_evening := false, is_night := false, is_weekend := false }
    environment := { brightness := 1/2, volume_level := 1/2,
                     is_headphones_connected := false }
    app := { session_count := 1, storage_available := none, is_first_launch := false }
    activity := { steps_today := none, is_moving := false }
    social := { upcoming_events_count := none, is_busy := false }
    questionnaire := { primary_use := none, interests := [], occupation := none } }

/-- The signal snapshot used in the C2 witness: pydantic defaults with the
weekend flag set. -/
def weekendSignals : FullSignalPayload :=
  { defaultSignals with
    context := { defaultSignals.context with is_weekend := true } }

/-- `check_trigger(trigger, signals)`: named boolean predicates over the
signal snapshot; an unrecognized trigger name evaluates to `false`. -/
def check_trigger (trigger : String) (signals : FullSignalPayload) : Bool :=
  if trigger = "morning" then signals.context.is_morning
  else if trigger = "evening" then signals.context.is_evening
  else if trigger = "night" then signals.context.is_night
  else if trigger = "morning_or_evening" then
    signals.context.is_morning || signals.context.is_evening
  else if trigger = "weekend" then signals.context.is_weekend
  else if trigger = "weekday" then !signals.context.is_weekend
  else if trigger = "work_hours" then
    signals.context.is_afternoon && !signals.context.is_weekend
  else if trigger = "hindi_or_regional" then
    decide (signals.context.language ∈ ["hi", "ta", "te", "mr", "bn", "gu", "kn", "ml"])
  else if trigger = "low_end_device" then signals.device.is_low_end
  else if trigger = "high_end_device" then !signals.device.is_low_end
  else if trigger = "large_font_scale" then decide (signals.device.font_scale > 12/10)
  else if trigger = "dark_mode" then decide (signals.device.color_scheme = "dark")
  else if trigger = "reduced_motion" then signals.device.reduced_motion
  else if trigger = "wifi_connected" then signals.network.is_wifi
  else if trigger = "cellular_network" then decide (signals.network.type = "CELLULAR")
  else if trigger = "low_brightness" then decide (signals.environment.brightness < 3/10)
  else if trigger = "high_volume" then decide (signals.environment.volume_level > 7/10)
  else if trigger = "headphones_connected" then signals.environment.is_headphones_connected
  else if trigger = "first_launch" then signals.app.is_first_launch
  else if trigger = "few_sessions" then decide (signals.app.session_count < 5)
  else if trigger = "low_storage" then
    match signals.app.storage_available with
    | none => false
    | some v => decide (v < 1024 * 1024 * 1024)
  else if trigger = "is_moving" then signals.activity.is_moving
  else if trigger = "steps_increasing" then
    match signals.activity.steps_today with
    | none => false
    | some v => decide (v > 1000)
  else if trigger = "many_calendar_events" then
    match signals.social.upcoming_events_count with
    | none => false
    | some v => decide (v ≥ 2)
  else if trigger = "is_busy" then signals.social.is_busy
  else if trigger = "spiritual_interest" then
    decide (signals.questionnaire.primary_use = some "spiritual") ||
      decide ("devotional" ∈ signals.questionnaire.interests)
  else if trigger = "business_use" then
    decide (signals.questionnaire.primary_use = some "business") ||
      decide (signals.questionnaire.occupation = some "business_owner")
  else if trigger = "student_occupation" then
    decide (signals.questionnaire.occupation = some "student") ||
      decide (signals.questionnaire.primary_use = some "education")
  else false

/-! ## Scenario catalog and matcher -/

/-- A catalog entry.  Only the trigger list takes part in matching; the
display metadata and the candidate suggestion lists of the source catalog
play no role in the claims and are omitted. -/
structure Scenario where
  triggers : List String
deriving DecidableEq

/-- The 8-persona catalog `SCENARIOS` (trigger lists, in definition order). -/
def SCENARIOS : List (String × Scenario) :=
  [ ("morning_devotee",
      ⟨["morning", "hindi_or_regional", "spiritual_interest", "low_brightness"]⟩),
    ("evening_merchant", ⟨["evening", "business_use", "cellular_network"]⟩),
    ("budget_student", ⟨["low_end_device", "student_occupation", "low_storage"]⟩),
    ("weekend_family", ⟨["weekend", "evening", "wifi_connected", "high_volume"]⟩),
    ("night_owl", ⟨["night", "high_end_device", "headphones_connected", "dark_mode"]⟩),
    ("mobile_commuter",
      ⟨["is_moving", "morning_or_evening", "cellular_network", "steps_increasing"]⟩),
    ("digital_newcomer",
      ⟨["large_font_scale", "first_launch", "few_sessions", "reduced_motion"]⟩),
    ("busy_professional",
      ⟨["many_calendar_events", "weekday", "work_hours", "is_busy"]⟩) ]

/-- Trigger-fraction score of one persona:
(number of satisfied triggers) / (total trigger count). -/
def scenarioScore (signals : FullSignalPayload) (triggers : List String) : ℚ :=
  ((triggers.countP (fun t => check_trigger t signals) : ℚ)) / (triggers.length : ℚ)

/-- The `scores` dict of `match_scenario`, in catalog iteration order:
personas with zero triggers are skipped. -/
def scoreList (catalog : List (String × Scenario)) (signals : FullSignalPayload) :
    List (String × ℚ) :=
  (catalog.filter (fun p => !p.2.triggers.isEmpty)).map
    (fun p => (p.1, scenarioScore signals p.2.triggers))

/-- Python's `max(..., key=...)` keeps the current maximum and replaces it
only on a strictly greater value, so the first maximal entry wins. -/
def maxFrom (b : String × ℚ) : List (String × ℚ) → String × ℚ
  | [] => b
  | p :: ps => maxFrom (if p.2 > b.2 then p else b) ps

/-- `max(scores, key=scores.get)` together with the lookup of its value. -/
def firstMax : List (String × ℚ) → Option (String × ℚ)
  | [] => none
  | x :: xs => some (maxFrom x xs)

/-- `match_scenario(signals) -> (scenario_id, confidence)`, parameterized by
the catalog (the source reads the global `SCENARIOS`). -/
def match_scenario (catalog : List (String × Scenario)) (signals : FullSignalPayload) :
    String × ℚ :=
  match firstMax (scoreList catalog signals) with
  | none => ("general", 3/10)
  | some (best, confidence) =>
      if confidence < 2/5 then ("general", confidence) else (best, confidence)

/-! ## Suggestions and the ranker -/

/-- Deep-link content descriptor (the fields read by the ranker). -/
structure SpecificContent where
  name : String
  type : String
  source : String
deriving DecidableEq

structure Suggestion where
  title : String
  description : String
  action : String
  icon : String
  priority : ℤ
  specific_content : Option SpecificContent
deriving DecidableEq

/-- Learned per-user preferences (the `preferences` dict of a profile). -/
structure UserPreferences where
  liked_categories : List String
  disliked_categories : List String
  preferred_content_types : List String
  preferred_sources : List String
  active_hours : List ℕ
  avg_session_duration_ms : ℤ
  total_sessions : ℕ
  scenario_affinity : List (String × ℚ)
deriving DecidableEq

/-- The fixed `category_mapping` lookup with default "general". -/
def category_mapping (content_type : String) : String :=
  if content_type = "video" then "entertainment"
  else if content_type = "song" then "music"
  else if content_type = "recipe" then "cooking"
  else if content_type = "podcast" then "education"
  else if content_type = "article" then "reading"
  else if content_type = "app" then "utility"
  else "general"

/-- The adjusted score of one candidate inside
`enhance_suggestions_with_learning`: base priority, −2 if the mapped
category is liked, +5 if disliked, −1 on a case-insensitive preferred-source
match (`suggestion.get("specificContent", {})` defaults to an empty dict,
i.e. empty strings for `type` and `source`). -/
def suggestionScore (prefs : UserPreferences) (s : Suggestion) : ℤ :=
  let content_type := (match s.specific_content with
    | none => ""
    | some c => c.type).toLower
  let category := category_mapping content_type
  let score := s.priority
  let score := if category ∈ prefs.liked_categories then score - 2 else score
  let score := if category ∈ prefs.disliked_categories then score + 5 else score
  let source := (match s.specific_content with
    | none => ""
    | some c => c.source).toLower
  if source ∈ prefs.preferred_sources.map (fun x => x.toLower) then score - 1
  else score

/-- The `scored_suggestions` list of (score, suggestion) pairs, in input order. -/
def scoredSuggestions (prefs : UserPreferences) (suggestions : List Suggestion) :
    List (ℤ × Suggestion) :=
  suggestions.map (fun s => (suggestionScore prefs s, s))

/-- `scored_suggestions.sort(key=lambda x: x[0])`: Python's stable ascending
sort by score, modelled by the (stable) `List.mergeSort`. -/
def sortedSuggestions (prefs : UserPreferences) (suggestions : List Suggestion) :
    List (ℤ × Suggestion) :=
  (scoredSuggestions prefs suggestions).mergeSort (fun a b => decide (a.1 ≤ b.1))

/-- `enhance_suggestions_with_learning(suggestions, user_intelligence)`:
stable sort by adjusted score, then re-assign priorities 1..N in the new
order. -/
def enhance_suggestions_with_learning (prefs : UserPreferences)
    (suggestions : List Suggestion) : List Suggestion :=
  (sortedSuggestions prefs suggestions).enum.map
    (fun p => { p.2.2 with priority := (p.1 : ℤ) + 1 })

/-! ## User events, the preference learner, and the intelligence store -/

/-- A tracked user event (the fields read by the learning code).  The
`event_id`, `event_name`, `value` and `metadata` fields of the source model
are never read by the kernel and are omitted. -/
structure UserEvent where
  event_type : String
  category : Option String
  content_type : Option String
  source : Option String
  scenario : Option String
  timestamp : ℤ
  duration_ms : Option ℤ
deriving DecidableEq

/-- `event_type == "like" and category` branch: add to the liked set if
absent (empty-string categories are falsy in Python and skipped). -/
def newLikedCategories (p : UserPreferences) (ty : String) (cat : Option String) :
    List String :=
  match cat with
  | none => p.liked_categories
  | some c =>
      if c = "" then p.liked_categories
      else if ty = "like" then
        if c ∈ p.liked_categories then p.liked_categories
        else p.liked_categories ++ [c]
      else p.liked_categories

/-- Like removes the category from the disliked set if present; dislike adds
it if absent; no other event touches the set. -/
def newDislikedCategories (p : UserPreferences) (ty : String) (cat : Option String) :
    List String :=
  match cat with
  | none => p.disliked_categories
  | some c =>
      if c = "" then p.disliked_categories
      else if ty = "like" then
        if c ∈ p.disliked_categories then p.disliked_categories.erase c
        else p.disliked_categories
      else if ty = "dislike" then
        if c ∈ p.disliked_categories then p.disliked_categories
        else p.disliked_categories ++ [c]
      else p.disliked_categories

/-- View/click with a content type: append if absent, keep the last 5
(`[-5:]`). -/
def newPreferredContentTypes (p : UserPreferences) (ty : String)
    (ct : Option String) : List String :=
  match ct with
  | none => p.preferred_content_types
  | some c =>
      if c = "" then p.preferred_content_types
      else if ty = "view" ∨ ty = "click" then
        if c ∈ p.preferred_content_types then p.preferred_content_types
        else
          let l := p.preferred_content_types ++ [c]
          l.drop (l.length - 5)
      else p.preferred_content_types

/-- View/click/like with a source: append if absent, keep the last 5. -/
def newPreferredSources (p : UserPreferences) (ty : String)
    (src : Option String) : List String :=
  match src with
  | none => p.preferred_sources
  | some c =>
      if c = "" then p.preferred_sources
      else if ty = "view" ∨ ty = "click" ∨ ty = "like" then
        if c ∈ p.preferred_sources then p.preferred_sources
        else
          let l := p.preferred_sources ++ [c]
          l.drop (l.length - 5)
      else p.preferred_sources

/-- `prefs["scenario_affinity"][scenario] += d` on the association-list model
of the dict. -/
def bumpAffinity (aff : List (String × ℚ)) (sc : String) (d : ℚ) :
    List (String × ℚ) :=
  aff.map (fun q => if q.1 = sc then (q.1, q.2 + d) else q)

/-- `if scenario not in affinity: affinity[scenario] = 0` (dict insertion
appends the new key at the end). -/
def ensureAffinityKey (aff : List (String × ℚ)) (sc : String) :
    List (String × ℚ) :=
  if (aff.lookup sc).isSome then aff else aff ++ [(sc, 0)]

/-- Events carrying a scenario tag: ensure the key, then +1 for
like/click/view and −0.5 for dislike. -/
def newScenarioAffinity (p : UserPreferences) (ty : String)
    (sc : Option String) : List (String × ℚ) :=
  match sc with
  | none => p.scenario_affinity
  | some s =>
      if s = "" then p.scenario_affinity
      else
        let aff := ensureAffinityKey p.scenario_affinity s
        if ty = "like" ∨ ty = "click" ∨ ty = "view" then bumpAffinity aff s 1
        else if ty = "dislike" then bumpAffinity aff s (-(1/2 : ℚ))
        else aff

/-- Active-hours update: `hour = datetime.fromtimestamp(ts/1000).hour` (the
local-hour function depends on the host timezone and is passed in as
`hourOf`); if the hour is absent it is appended and the list replaced by
`sorted(...)[-8:]`. -/
def newActiveHours (hourOf : ℤ → ℕ) (p : UserPreferences) (ts : ℤ) : List ℕ :=
  let hour := hourOf ts
  if hour ∈ p.active_hours then p.active_hours
  else
    let l := List.insertionSort (· ≤ ·) (p.active_hours ++ [hour])
    l.drop (l.length - 8)

/-- Python `int(...)` truncation toward zero on an exact rational. -/
def ratTrunc (q : ℚ) : ℤ := q.num / (q.den : ℤ)

/-- `session_end` with a positive duration: incremental mean with the
pre-update session count, then increment the count. -/
def newSessionStats (p : UserPreferences) (ty : String) (dur : Option ℤ) :
    ℤ × ℕ :=
  if ty = "session_end" then
    let duration := dur.getD 0
    if 0 < duration then
      let total_sessions := p.total_sessions + 1
      let new_avg := ((p.avg_session_duration_ms * (p.total_sessions : ℤ)
        + duration : ℤ) : ℚ) / (total_sessions : ℚ)
      (ratTrunc new_avg, total_sessions)
    else (p.avg_session_duration_ms, p.total_sessions)
  else (p.avg_session_duration_ms, p.total_sessions)

/-- `_update_preferences_from_event(user, event)`: the per-event preference
learner.  The source mutates the fields in sequence; the branches touch
pairwise disjoint fields and each reads only the pre-event state, so the
update is the simultaneous record update below. -/
def _update_preferences_from_event (hourOf : ℤ → ℕ) (p : UserPreferences)
    (e : UserEvent) : UserPreferences :=
  { liked_categories := newLikedCategories p e.event_type e.category
    disliked_categories := newDislikedCategories p e.event_type e.category
    preferred_content_types := newPreferredContentTypes p e.event_type e.content_type
    preferred_sources := newPreferredSources p e.event_type e.source
    active_hours := newActiveHours hourOf p e.timestamp
    avg_session_duration_ms := (newSessionStats p e.event_type e.duration_ms).1
    total_sessions := (newSessionStats p e.event_type e.duration_ms).2
    scenario_affinity := newScenarioAffinity p e.event_type e.scenario }

/-- The zero preference record of a freshly created profile. -/
def emptyPrefs : UserPreferences :=
  { liked_categories := [], disliked_categories := [],
    preferred_content_types := [], preferred_sources := [], active_hours := [],
    avg_session_duration_ms := 0, total_sessions := 0, scenario_affinity := [] }

/-- A per-user intelligence record (the fields the claims are about; the
`created_at`/`updated_at` timestamps, the stored `journey_day` cache and the
unused `patterns` list are omitted). -/
structure UserIntelligence where
  first_seen_at : ℤ
  recent_events : List UserEvent
  total_events : ℕ
  preferences : UserPreferences
  total_likes : ℕ
  total_dislikes : ℕ
  last_scenario : Option String
  scenario_history : List String
deriving DecidableEq

/-- The creation branch of `get_or_create_user`: the zero-state record with
`first_seen_at = now`. -/
def freshUser (now : ℤ) : UserIntelligence :=
  { first_seen_at := now, recent_events := [], total_events := 0,
    preferences := emptyPrefs, total_likes := 0, total_dislikes := 0,
    last_scenario := none, scenario_history := [] }

/-- The ring-buffer truncation `if len(recent) > 100: recent = recent[-100:]`. -/
def clipRecent (l : List UserEvent) : List UserEvent :=
  if l.length > 100 then l.drop (l.length - 100) else l

/-- One iteration of the `add_events` loop: append to the ring buffer,
truncate, bump the total counter, learn from the event. -/
def applyEvent (hourOf : ℤ → ℕ) (u : UserIntelligence) (e : UserEvent) :
    UserIntelligence :=
  { u with
    recent_events := clipRecent (u.recent_events ++ [e])
    total_events := u.total_events + 1
    preferences := _update_preferences_from_event hourOf u.preferences e }

/-- `add_events(id, events) -> count`: fold the events in order and return
`len(events)`. -/
def add_events (hourOf : ℤ → ℕ) (u : UserIntelligence)
    (events : List UserEvent) : UserIntelligence × ℕ :=
  (events.foldl (applyEvent hourOf) u, events.length)

/-- `record_feedback`: the per-record counters (the separate global
per-scenario aggregate dict does not touch the record and is outside the
claims). -/
def record_feedback (u : UserIntelligence) (feedback : String) :
    UserIntelligence :=
  { u with
    total_likes := if feedback = "like" then u.total_likes + 1 else u.total_likes
    total_dislikes :=
      if feedback = "dislike" then u.total_dislikes + 1 else u.total_dislikes }

/-- `update_scenario`: set the last scenario, append to the history (cap 20),
and add the fixed +0.5 affinity boost. -/
def update_scenario (u : UserIntelligence) (sc : String) : UserIntelligence :=
  let history := u.scenario_history ++ [sc]
  { u with
    last_scenario := some sc
    scenario_history :=
      if history.length > 20 then history.drop (history.length - 20) else history
    preferences := { u.preferences with
      scenario_affinity :=
        bumpAffinity (ensureAffinityKey u.preferences.scenario_affinity sc) sc (1/2) } }

/-- `calculate_journey_day`: whole days since first seen (Python floor
division). -/
def calculate_journey_day (now : ℤ) (u : UserIntelligence) : ℤ :=
  (now - u.first_seen_at).fdiv (24 * 60 * 60 * 1000)

/-- Round a rational to the nearest integer, halves to even — the behaviour
of Python `round`. -/
def roundHalfEven (x : ℚ) : ℤ :=
  if x - ⌊x⌋ < 1/2 then ⌊x⌋
  else if 1/2 < x - ⌊x⌋ then ⌊x⌋ + 1
  else if Even ⌊x⌋ then ⌊x⌋ else ⌊x⌋ + 1

/-- Python `round(x, 2)` on an exact rational. -/
def round2 (x : ℚ) : ℚ := ((roundHalfEven (x * 100) : ℤ) : ℚ) / 100

structure IntelligenceSummary where
  journey_day : ℤ
  stage : String
  insights : List String
  top_categories : List String
  top_content_types : List String
  engagement_score : ℚ
  personalization_level : String
deriving DecidableEq

/-- `get_intelligence_summary`: stage from the journey day, human-readable
insights, top-3 lists, the engagement score (reported rounded to two
decimals) and the personalization level (derived from the unrounded score). -/
def get_intelligence_summary (now : ℤ) (u : UserIntelligence) :
    IntelligenceSummary :=
  let prefs := u.preferences
  let journey_day := calculate_journey_day now u
  let stage :=
    if journey_day ≤ 3 then "newcomer"
    else if journey_day ≤ 10 then "explorer"
    else if journey_day ≤ 20 then "regular"
    else "partner"
  let insights :=
    (if prefs.liked_categories ≠ [] then
      ["Loves " ++ String.intercalate ", " (prefs.liked_categories.take 3)
        ++ " content"]
     else [])
    ++ (if prefs.preferred_sources ≠ [] then
      ["Prefers " ++ String.intercalate ", " (prefs.preferred_sources.take 2)]
     else [])
    ++ (if prefs.active_hours ≠ [] then
      (if prefs.active_hours.any (fun h => decide (h ∈ ([5, 6, 7, 8, 9] : List ℕ)))
       then ["Early bird 🌅"] else [])
      ++ (if prefs.active_hours.any
            (fun h => decide (h ∈ ([22, 23, 0, 1, 2] : List ℕ)))
          then ["Night owl 🦉"] else [])
     else [])
    ++ (if u.total_events > 50 then ["Power user! ⚡"] else [])
  let insights := if insights = [] then ["Getting to know you..."] else insights
  let engagement := min 1 ((u.total_events : ℚ) / 100 * (3/10)
    + (u.total_likes : ℚ) / 20 * (3/10)
    + (prefs.total_sessions : ℚ) / 10 * (2/5))
  let level :=
    if engagement > 7/10 then "high"
    else if engagement > 3/10 then "medium"
    else "low"
  { journey_day := journey_day, stage := stage, insights := insights,
    top_categories := prefs.liked_categories.take 3,
    top_content_types := prefs.preferred_content_types.take 3,
    engagement_score := round2 engagement,
    personalization_level := level }

/-- The mutating store operations on one profile record. -/
inductive StoreOp where
  | addEvents (events : List UserEvent)
  | recordFeedback (sc : String) (feedback : String)
  | updateScenario (sc : String)

def applyOp (hourOf : ℤ → ℕ) (u : UserIntelligence) : StoreOp → UserIntelligence
  | .addEvents events => (add_events hourOf u events).1
  | .recordFeedback _ feedback => record_feedback u feedback
  | .updateScenario sc => update_scenario u sc

/-- The cap invariant of the bounded collections: preferred content types
≤ 5, preferred sources ≤ 5, active hours ≤ 8, scenario history ≤ 20, recent
events ≤ 100. -/
def boundedCapsInv (u : UserIntelligence) : Prop :=
  u.preferences.preferred_content_types.length ≤ 5
  ∧ u.preferences.preferred_sources.length ≤ 5
  ∧ u.preferences.active_hours.length ≤ 8
  ∧ u.scenario_history.length ≤ 20
  ∧ u.recent_events.length ≤ 100

instance (u : UserIntelligence) : Decidable (boundedCapsInv u) := by
  unfold boundedCapsInv
  infer_instance

/-- One admissible instance of the host-local-hour function
`datetime.fromtimestamp(ts / 1000).hour` (a UTC-configured host). -/
def utcHour (ts : ℤ) : ℕ := ((ts.fdiv 3600000).emod 24).toNat

/-- 101 identical events, used to exercise the ring-buffer truncation. -/
def manyEvents : List UserEvent :=
  List.replicate 101 ⟨"view", none, none, none, none, 0, none⟩

/-- A preference state whose active-hours set is full, hour 23 inserted
first (oldest). -/
def lateHoursPrefs : UserPreferences :=
  { emptyPrefs with active_hours := [23, 1, 2, 3, 4, 5, 6, 7] }

/-- A record with 100 events, 20 likes, 10 sessions (the engagement-score
example). -/
def exampleUser : UserIntelligence :=
  { (freshUser 0) with
    total_events := 100
    total_likes := 20
    preferences := { emptyPrefs with total_sessions := 10 } }

/-- A record with a single event (engagement 0.003, below one hundredth). -/
def oneEventUser : UserIntelligence :=
  { (freshUser 0) with total_events := 1 }

/-- A preference state already holding content type "video". -/
def videoPrefs : UserPreferences :=
  { emptyPrefs with preferred_content_types := ["video"] }

/-! ## Theorems -/

theorem maxFrom_of_all_le (b : String × ℚ) (l : List (String × ℚ))
    (h : ∀ p ∈ l, p.2 ≤ b.2) : maxFrom b l = b := by
  induction l with
  | nil => rfl
  | cons p ps ih =>
      have hp : ¬ p.2 > b.2 := not_lt.mpr (h p (List.mem_cons_self p ps))
      simp only [maxFrom, if_neg hp]
      exact ih fun q hq => h q (List.mem_cons_of_mem p hq)

theorem maxFrom_mem : ∀ (l : List (String × ℚ)) (b : String × ℚ), maxFrom b l ∈ b :: l
  | [], b => List.mem_cons_self b []
  | p :: ps, b => by
      simp only [maxFrom]
      by_cases hc : p.2 > b.2
      · rw [if_pos hc]
        exact List.mem_cons_of_mem b (maxFrom_mem ps p)
      · rw [if_neg hc]
        rcases List.mem_cons.mp (maxFrom_mem ps b) with h | h
        · exact List.mem_cons.mpr (Or.inl h)
        · exact List.mem_cons.mpr (Or.inr (List.mem_cons_of_mem p h))

theorem firstMax_mem {l : List (String × ℚ)} {p : String × ℚ}
    (h : firstMax l = some p) : p ∈ l := by
  cases l with
  | nil => simp [firstMax] at h
  | cons x xs =>
      simp only [firstMax, Option.some.injEq] at h
      exact h ▸ maxFrom_mem xs x

theorem maxFrom_eq_get :
    ∀ (l : List (String × ℚ)) (b : String × ℚ) (i : ℕ) (hi : i < l.length),
    b.2 < (l.get ⟨i, hi⟩).2 →
    (∀ m (hm : m < l.length), (l.get ⟨m, hm⟩).2 ≤ (l.get ⟨i, hi⟩).2) →
    (∀ m (hm : m < l.length), m < i → (l.get ⟨m, hm⟩).2 < (l.get ⟨i, hi⟩).2) →
    maxFrom b l = l.get ⟨i, hi⟩
  | [], _, i, hi => by simp at hi
  | p :: ps, b, 0, hi => fun hb hmax _ => by
      have hp : p.2 > b.2 := hb
      simp only [maxFrom, if_pos hp]
      exact maxFrom_of_all_le p ps fun q hq => by
        obtain ⟨⟨m, hm⟩, rfl⟩ := List.mem_iff_get.mp hq
        exact hmax (m + 1) (Nat.succ_lt_succ hm)
  | p :: ps, b, j + 1, hi => fun hb hmax hfirst => by
      have hj : j < ps.length := Nat.lt_of_succ_lt_succ hi
      have hstep : (if p.2 > b.2 then p else b).2 < (ps.get ⟨j, hj⟩).2 := by
        by_cases hc : p.2 > b.2
        · rw [if_pos hc]
          exact hfirst 0 (Nat.succ_pos _) (Nat.succ_pos j)
        · rw [if_neg hc]
          exact hb
      simp only [maxFrom]
      exact maxFrom_eq_get ps (if p.2 > b.2 then p else b) j hj hstep
        (fun m hm => hmax (m + 1) (Nat.succ_lt_succ hm))
        (fun m hm hmj => hfirst (m + 1) (Nat.succ_lt_succ hm) (Nat.succ_lt_succ hmj))

theorem firstMax_eq_get (l : List (String × ℚ)) (i : ℕ) (hi : i < l.length)
    (hmax : ∀ m (hm : m < l.length), (l.get ⟨m, hm⟩).2 ≤ (l.get ⟨i, hi⟩).2)
    (hfirst : ∀ m (hm : m < l.length), m < i → (l.get ⟨m, hm⟩).2 < (l.get ⟨i, hi⟩).2) :
    firstMax l = some (l.get ⟨i, hi⟩) := by
  cases l with
  | nil => simp at hi
  | cons x xs =>
      cases i with
      | zero =>
          exact congrArg some (maxFrom_of_all_le x xs fun q hq => by
            obtain ⟨⟨m, hm⟩, rfl⟩ := List.mem_iff_get.mp hq
            exact hmax (m + 1) (Nat.succ_lt_succ hm))
      | succ j =>
          have hj : j < xs.length := Nat.lt_of_succ_lt_succ hi
          exact congrArg some (maxFrom_eq_get xs x j hj
            (hfirst 0 (Nat.succ_pos _) (Nat.succ_pos j))
            (fun m hm => hmax (m + 1) (Nat.succ_lt_succ hm))
            (fun m hm hmj => hfirst (m + 1) (Nat.succ_lt_succ hm) (Nat.succ_lt_succ hmj)))

theorem scenarioScore_nonneg (signals : FullSignalPayload) (triggers : List String) :
    0 ≤ scenarioScore signals triggers := by
  unfold scenarioScore
  positivity

theorem scenarioScore_le_one (signals : FullSignalPayload) (triggers : List String) :
    scenarioScore signals triggers ≤ 1 := by
  unfold scenarioScore
  rcases Nat.eq_zero_or_pos triggers.length with h | h
  · simp [h]
  · rw [div_le_one (by exact_mod_cast h)]
    exact_mod_cast triggers.countP_le_length _

theorem scoreList_snd_bounds {catalog : List (String × Scenario)}
    {signals : FullSignalPayload} {p : String × ℚ}
    (hp : p ∈ scoreList catalog signals) : 0 ≤ p.2 ∧ p.2 ≤ 1 := by
  unfold scoreList at hp
  obtain ⟨q, _, rfl⟩ := List.mem_map.mp hp
  exact ⟨scenarioScore_nonneg _ _, scenarioScore_le_one _ _⟩

/-- C1: for every catalog and every signal snapshot, `match_scenario` returns
a confidence in [0, 1]; on an empty catalog it returns the reserved fallback
persona id "general" with confidence exactly 0.3; and whenever the winning
raw score is below the 0.4 threshold it returns the fallback persona id with
that sub-threshold score preserved as the confidence. -/
theorem match_scenario_fallback_and_bounds
    (catalog : List (String × Scenario)) (signals : FullSignalPayload) :
    (0 ≤ (match_scenario catalog signals).2 ∧ (match_scenario catalog signals).2 ≤ 1)
    ∧ (catalog = [] → match_scenario catalog signals = ("general", 3/10))
    ∧ (∀ p : String × ℚ, firstMax (scoreList catalog signals) = some p →
        p.2 < 2/5 → match_scenario catalog signals = ("general", p.2)) := by
  refine ⟨?_, ?_, ?_⟩
  · unfold match_scenario
    cases hfm : firstMax (scoreList catalog signals) with
    | none => norm_num
    | some p =>
        obtain ⟨h0, h1⟩ := scoreList_snd_bounds (firstMax_mem hfm)
        obtain ⟨id, s⟩ := p
        show (0 ≤ (if s < 2/5 then ("general", s) else (id, s)).2
          ∧ (if s < 2/5 then ("general", s) else (id, s)).2 ≤ 1)
        split <;> exact ⟨h0, h1⟩
  · intro h
    subst h
    rfl
  · intro p hfm hlt
    unfold match_scenario
    rw [hfm]
    obtain ⟨id, s⟩ := p
    exact if_pos hlt

/-- C1 witness: a one-persona catalog whose single trigger is unsatisfied
scores 0 < 0.4, so the fallback id is returned with the computed score 0. -/
theorem match_scenario_fallback_and_bounds_witness :
    match_scenario [("morning_devotee", ⟨["morning"]⟩)] defaultSignals
      = ("general", 0) :=
  (match_scenario_fallback_and_bounds [("morning_devotee", ⟨["morning"]⟩)]
      defaultSignals).2.2 ("morning_devotee", 0)
    (by
      have hsl : scoreList [("morning_devotee", (⟨["morning"]⟩ : Scenario))] defaultSignals
          = [("morning_devotee", 0)] := by
        simp [scoreList, scenarioScore, check_trigger, defaultSignals, List.isEmpty,
          List.countP_cons, List.countP_nil]
      rw [hsl]
      rfl)
    (by norm_num)

/-- C2: `match_scenario` is a pure function of its input (identical input
yields the identical pair by definitional equality), and ties are broken by
catalog iteration order: if entry `i` of the score list attains the maximum
score, every earlier entry scores strictly less (so `i` is the first
maximal entry, i.e. the earliest of all tied winners), and its score meets
the 0.4 threshold, then `match_scenario` returns exactly that persona id
with that score as the confidence. -/
theorem match_scenario_tie_break
    (catalog : List (String × Scenario)) (signals : FullSignalPayload)
    (i : ℕ) (hi : i < (scoreList catalog signals).length)
    (hmax : ∀ m (hm : m < (scoreList catalog signals).length),
      ((scoreList catalog signals).get ⟨m, hm⟩).2 ≤ ((scoreList catalog signals).get ⟨i, hi⟩).2)
    (hfirst : ∀ m (hm : m < (scoreList catalog signals).length),
      m < i → ((scoreList catalog signals).get ⟨m, hm⟩).2 < ((scoreList catalog signals).get ⟨i, hi⟩).2)
    (hthr : 2/5 ≤ ((scoreList catalog signals).get ⟨i, hi⟩).2) :
    match_scenario catalog signals = (scoreList catalog signals).get ⟨i, hi⟩ := by
  unfold match_scenario
  rw [firstMax_eq_get (scoreList catalog signals) i hi hmax hfirst]
  show (if ((scoreList catalog signals).get ⟨i, hi⟩).2 < 2/5
      then ("general", ((scoreList catalog signals).get ⟨i, hi⟩).2)
      else (((scoreList catalog signals).get ⟨i, hi⟩).1,
            ((scoreList catalog signals).get ⟨i, hi⟩).2))
    = (scoreList catalog signals).get ⟨i, hi⟩
  rw [if_neg (not_lt.mpr hthr)]

/-- C2 witness: two personas tie with score 1; the one defined earlier in the
catalog wins. -/
theorem match_scenario_tie_break_witness :
    match_scenario
      [("weekend_family", ⟨["weekend"]⟩), ("night_owl", ⟨["weekend"]⟩)]
      weekendSignals = ("weekend_family", 1) := by
  have hsl : scoreList
      [("weekend_family", (⟨["weekend"]⟩ : Scenario)),
       ("night_owl", (⟨["weekend"]⟩ : Scenario))] weekendSignals
      = [("weekend_family", 1), ("night_owl", 1)] := by
    simp [scoreList, scenarioScore, check_trigger, weekendSignals, defaultSignals,
      List.isEmpty, List.countP_cons, List.countP_nil]
  have hi : 0 < (scoreList
      [("weekend_family", (⟨["weekend"]⟩ : Scenario)),
       ("night_owl", (⟨["weekend"]⟩ : Scenario))] weekendSignals).length := by
    rw [hsl]; norm_num
  have h := match_scenario_tie_break
    [("weekend_family", ⟨["weekend"]⟩), ("night_owl", ⟨["weekend"]⟩)]
    weekendSignals 0 hi
    (by
      intro m hm
      have e1 := List.get_of_eq hsl ⟨m, hm⟩
      have e0 := List.get_of_eq hsl ⟨0, hi⟩
      rw [e1, e0]
      have hm2 : m < 2 := by
        have := hm
        rw [hsl] at this
        simpa using this
      interval_cases m
      · exact le_refl _
      · exact le_refl _)
    (fun m hm hm0 => absurd hm0 (Nat.not_lt_zero m))
    (by
      have e0 := List.get_of_eq hsl ⟨0, hi⟩
      rw [e0]
      norm_num)
  have e0 := List.get_of_eq hsl ⟨0, hi⟩
  rw [h, e0]
  rfl

theorem leScore_trans : ∀ (a b c : ℤ × Suggestion),
    (decide (a.1 ≤ b.1) : Bool) → (decide (b.1 ≤ c.1) : Bool) →
    (decide (a.1 ≤ c.1) : Bool) := by
  intro a b c hab hbc
  simp only [decide_eq_true_eq] at *
  omega

theorem leScore_total : ∀ (a b : ℤ × Suggestion),
    ((decide (a.1 ≤ b.1) : Bool) || (decide (b.1 ≤ a.1) : Bool)) = true := by
  intro a b
  simpa using Int.le_total a.1 b.1

/-- Pushing a function that only reads the payload through `List.enum`. -/
theorem enum_map_snd_comp {α β : Type _} (l : List α) (g : α → β) :
    l.enum.map (fun p => g p.2) = l.map g := by
  rw [show (fun p : ℕ × α => g p.2) = g ∘ Prod.snd from rfl,
    ← List.map_map, List.enum_map_snd]

/-- Pushing a function that only reads the index through `List.enum`. -/
theorem enum_map_fst_comp {α β : Type _} (l : List α) (f : ℕ → β) :
    l.enum.map (fun p => f p.1) = (List.range l.length).map f := by
  rw [show (fun p : ℕ × α => f p.1) = f ∘ Prod.fst from rfl,
    ← List.map_map, List.enum_map_fst]

/-- C4: the ranker orders the candidates ascending by adjusted score, where
the adjusted score is the candidate's priority, −2 when its mapped category
is liked, +5 when it is disliked (additively, so +3 when in both sets), and
−1 on a case-insensitive preferred-source match; candidates are kept in
input order when scores are equal (stability: any score-ordered pair of the
scored input list survives as a sublist of the sorted list), and the sorted
list is a permutation of the scored input list. -/
theorem rank_orders_ascending_and_stable (prefs : UserPreferences)
    (suggestions : List Suggestion) :
    ((sortedSuggestions prefs suggestions).map Prod.fst).Pairwise (· ≤ ·)
    ∧ (∀ a b : ℤ × Suggestion,
        [a, b].Sublist (scoredSuggestions prefs suggestions) → a.1 ≤ b.1 →
        [a, b].Sublist (sortedSuggestions prefs suggestions))
    ∧ (sortedSuggestions prefs suggestions).Perm (scoredSuggestions prefs suggestions)
    ∧ (∀ s : Suggestion,
        suggestionScore prefs s =
          s.priority
          + (if category_mapping ((match s.specific_content with
              | none => ""
              | some c => c.type).toLower) ∈ prefs.liked_categories
             then -2 else 0)
          + (if category_mapping ((match s.specific_content with
              | none => ""
              | some c => c.type).toLower) ∈ prefs.disliked_categories
             then 5 else 0)
          + (if (match s.specific_content with
              | none => ""
              | some c => c.source).toLower
                ∈ prefs.preferred_sources.map (fun x => x.toLower)
             then -1 else 0)) := by
  refine ⟨?_, ?_, ?_, ?_⟩
  · have hs := List.sorted_mergeSort leScore_trans leScore_total
      (scoredSuggestions prefs suggestions)
    rw [List.pairwise_map]
    exact hs.imp (fun h => by simpa using h)
  · intro a b hsub hle
    exact List.sublist_mergeSort leScore_trans leScore_total
      (List.pairwise_pair.mpr (by simpa using hle)) hsub
  · exact List.mergeSort_perm _ _
  · intro s
    simp only [suggestionScore]
    split_ifs <;> omega

/-- C4 witness: two equal-priority candidates with empty content descriptors
tie at the same adjusted score and keep their input order. -/
theorem rank_orders_ascending_and_stable_witness :
    [((1 : ℤ), (⟨"a", "", "", "", 1, none⟩ : Suggestion)),
     ((1 : ℤ), (⟨"b", "", "", "", 1, none⟩ : Suggestion))].Sublist
      (sortedSuggestions ⟨[], [], [], [], [], 0, 0, []⟩
        [⟨"a", "", "", "", 1, none⟩, ⟨"b", "", "", "", 1, none⟩]) :=
  (rank_orders_ascending_and_stable ⟨[], [], [], [], [], 0, 0, []⟩
      [⟨"a", "", "", "", 1, none⟩, ⟨"b", "", "", "", 1, none⟩]).2.1
    ((1 : ℤ), ⟨"a", "", "", "", 1, none⟩)
    ((1 : ℤ), ⟨"b", "", "", "", 1, none⟩)
    (by
      have : scoredSuggestions ⟨[], [], [], [], [], 0, 0, []⟩
          [⟨"a", "", "", "", 1, none⟩, ⟨"b", "", "", "", 1, none⟩]
          = [((1 : ℤ), ⟨"a", "", "", "", 1, none⟩),
             ((1 : ℤ), ⟨"b", "", "", "", 1, none⟩)] := by
        simp [scoredSuggestions, suggestionScore, category_mapping]
      rw [this])
    (le_refl 1)

/-- C5: the ranker returns a list of the same cardinality, its priority
fields are exactly 1..N in output order, and no field other than priority
is mutated on any candidate (erasing the priority field, the output is a
permutation of the input). -/
theorem rank_renumbers_and_mutates_only_priority (prefs : UserPreferences)
    (suggestions : List Suggestion) :
    (enhance_suggestions_with_learning prefs suggestions).length = suggestions.length
    ∧ (enhance_suggestions_with_learning prefs suggestions).map (fun s => s.priority)
        = (List.range suggestions.length).map (fun i : ℕ => ((i : ℤ) + 1))
    ∧ ((enhance_suggestions_with_learning prefs suggestions).map
          (fun s => { s with priority := 0 })).Perm
        (suggestions.map (fun s => { s with priority := 0 })) := by
  have hlen : (sortedSuggestions prefs suggestions).length = suggestions.length := by
    simp [sortedSuggestions, scoredSuggestions]
  refine ⟨?_, ?_, ?_⟩
  · simp [enhance_suggestions_with_learning, hlen]
  · unfold enhance_suggestions_with_learning
    rw [List.map_map]
    rw [show ((fun s : Suggestion => s.priority) ∘
        (fun p : ℕ × (ℤ × Suggestion) => { p.2.2 with priority := (p.1 : ℤ) + 1 }))
        = fun p : ℕ × (ℤ × Suggestion) => ((p.1 : ℤ) + 1) from rfl]
    have h1 := enum_map_fst_comp (sortedSuggestions prefs suggestions)
      (fun i : ℕ => ((i : ℤ) + 1))
    rw [hlen] at h1
    exact h1
  · unfold enhance_suggestions_with_learning
    rw [List.map_map]
    rw [show ((fun s : Suggestion => ({ s with priority := 0 } : Suggestion)) ∘
        (fun p : ℕ × (ℤ × Suggestion) => { p.2.2 with priority := (p.1 : ℤ) + 1 }))
        = fun p : ℕ × (ℤ × Suggestion) => ({ p.2.2 with priority := 0 } : Suggestion)
        from funext fun p => by obtain ⟨i, sc, s⟩ := p; cases s; rfl]
    refine List.Perm.trans (List.Perm.of_eq
      (enum_map_snd_comp (sortedSuggestions prefs suggestions)
        (fun q : ℤ × Suggestion => ({ q.2 with priority := 0 } : Suggestion)))) ?_
    refine List.Perm.trans ((List.mergeSort_perm (scoredSuggestions prefs suggestions)
      (fun a b => decide (a.1 ≤ b.1))).map
      (fun q : ℤ × Suggestion => ({ q.2 with priority := 0 } : Suggestion)))
      (List.Perm.of_eq ?_)
    unfold scoredSuggestions
    rw [List.map_map]
    rfl

theorem clipRecent_eq_drop (l : List UserEvent) :
    clipRecent l = l.drop (l.length - 100) := by
  unfold clipRecent
  by_cases h : l.length > 100
  · rw [if_pos h]
  · rw [if_neg h]
    rw [show l.length - 100 = 0 from by omega, List.drop_zero]

/-- Re-clipping an already clipped buffer after an append clips the whole
concatenation: the iterated per-event truncation collapses. -/
theorem clipRecent_append (x y : List UserEvent) :
    clipRecent (clipRecent x ++ y) = clipRecent (x ++ y) := by
  rw [clipRecent_eq_drop x, clipRecent_eq_drop, clipRecent_eq_drop]
  rw [List.drop_append_eq_append_drop, List.drop_append_eq_append_drop,
    List.drop_drop]
  simp only [List.length_append, List.length_drop]
  congr 1
  · congr 1
    omega
  · congr 1
    omega

theorem add_events_recent (hourOf : ℤ → ℕ) :
    ∀ (es : List UserEvent) (u : UserIntelligence), es ≠ [] →
    (add_events hourOf u es).1.recent_events = clipRecent (u.recent_events ++ es)
  | [], _, h => absurd rfl h
  | [e], u, _ => rfl
  | e :: e2 :: es2, u, _ => by
      have ih := add_events_recent hourOf (e2 :: es2) (applyEvent hourOf u e)
        (by simp)
      show ((e2 :: es2).foldl (applyEvent hourOf) (applyEvent hourOf u e)).recent_events
        = clipRecent (u.recent_events ++ (e :: e2 :: es2))
      calc ((e2 :: es2).foldl (applyEvent hourOf) (applyEvent hourOf u e)).recent_events
          = clipRecent ((applyEvent hourOf u e).recent_events ++ (e2 :: es2)) := ih
        _ = clipRecent (clipRecent (u.recent_events ++ [e]) ++ (e2 :: es2)) := rfl
        _ = clipRecent ((u.recent_events ++ [e]) ++ (e2 :: es2)) :=
            clipRecent_append _ _
        _ = clipRecent (u.recent_events ++ (e :: e2 :: es2)) := by
            rw [List.append_assoc]
            rfl

theorem add_events_total (hourOf : ℤ → ℕ) :
    ∀ (es : List UserEvent) (u : UserIntelligence),
    (add_events hourOf u es).1.total_events = u.total_events + es.length
  | [], u => by simp [add_events]
  | e :: es, u => by
      show ((es.foldl (applyEvent hourOf) (applyEvent hourOf u e)).total_events = _)
      rw [show (es.foldl (applyEvent hourOf) (applyEvent hourOf u e)).total_events
          = (add_events hourOf (applyEvent hourOf u e) es).1.total_events from rfl,
        add_events_total hourOf es (applyEvent hourOf u e)]
      show u.total_events + 1 + es.length = u.total_events + (es.length + 1)
      omega

set_option maxRecDepth 4000 in
/-- C3: on more than 100 events, `add_events` leaves the same ring buffer as
applying only the last 100 of them; it returns `len(events)` and adds
`len(events)` to the total-event counter. -/
theorem add_events_ring_buffer (hourOf : ℤ → ℕ) (u : UserIntelligence)
    (es : List UserEvent) (h : 100 < es.length) :
    (add_events hourOf u es).1.recent_events
      = (add_events hourOf u (es.drop (es.length - 100))).1.recent_events
    ∧ (add_events hourOf u es).2 = es.length
    ∧ (add_events hourOf u es).1.total_events = u.total_events + es.length := by
  refine ⟨?_, rfl, add_events_total hourOf es u⟩
  have hne : es ≠ [] := by
    intro h0
    rw [h0] at h
    simp at h
  have hd : es.drop (es.length - 100) ≠ [] := by
    intro h0
    have hlen := congrArg List.length h0
    rw [List.length_drop] at hlen
    simp at hlen
    omega
  rw [add_events_recent hourOf es u hne, add_events_recent hourOf _ u hd,
    clipRecent_eq_drop, clipRecent_eq_drop]
  have h1 : (u.recent_events ++ es).drop ((u.recent_events ++ es).length - 100)
      = es.drop (es.length - 100) := by
    rw [List.drop_append_eq_append_drop]
    rw [List.drop_eq_nil_of_le (by simp only [List.length_append]; omega),
      List.nil_append]
    congr 1
    simp only [List.length_append]
    omega
  have h2 : (u.recent_events ++ es.drop (es.length - 100)).drop
        ((u.recent_events ++ es.drop (es.length - 100)).length - 100)
      = es.drop (es.length - 100) :=
    List.drop_left' (by simp only [List.length_append, List.length_drop]; omega)
  rw [h1, h2]

/-- C3 witness: 101 events on a fresh profile. -/
theorem add_events_ring_buffer_witness :
    100 < manyEvents.length
    ∧ (add_events utcHour (freshUser 0) manyEvents).1.recent_events
      = (add_events utcHour (freshUser 0)
          (manyEvents.drop (manyEvents.length - 100))).1.recent_events :=
  ⟨by simp [manyEvents],
   (add_events_ring_buffer utcHour (freshUser 0) manyEvents
      (by simp [manyEvents])).1⟩

/-- C6: a like event carrying category `c` adds `c` to the liked set if
absent and removes it from the disliked set if present; a dislike event adds
`c` to the disliked set if absent and leaves the liked set untouched; after
like then dislike of the same category both sets hold it simultaneously. -/
theorem like_dislike_learning (hourOf : ℤ → ℕ) (p : UserPreferences)
    (c : String) (t₁ t₂ : ℤ) (hc : c ≠ "") :
    ((_update_preferences_from_event hourOf p
        ⟨"like", some c, none, none, none, t₁, none⟩).liked_categories
      = (if c ∈ p.liked_categories then p.liked_categories
         else p.liked_categories ++ [c]))
    ∧ ((_update_preferences_from_event hourOf p
        ⟨"like", some c, none, none, none, t₁, none⟩).disliked_categories
      = (if c ∈ p.disliked_categories then p.disliked_categories.erase c
         else p.disliked_categories))
    ∧ ((_update_preferences_from_event hourOf p
        ⟨"dislike", some c, none, none, none, t₂, none⟩).liked_categories
      = p.liked_categories)
    ∧ ((_update_preferences_from_event hourOf p
        ⟨"dislike", some c, none, none, none, t₂, none⟩).disliked_categories
      = (if c ∈ p.disliked_categories then p.disliked_categories
         else p.disliked_categories ++ [c]))
    ∧ (c ∈ (_update_preferences_from_event hourOf
          (_update_preferences_from_event hourOf p
            ⟨"like", some c, none, none, none, t₁, none⟩)
          ⟨"dislike", some c, none, none, none, t₂, none⟩).liked_categories
      ∧ c ∈ (_update_preferences_from_event hourOf
          (_update_preferences_from_event hourOf p
            ⟨"like", some c, none, none, none, t₁, none⟩)
          ⟨"dislike", some c, none, none, none, t₂, none⟩).disliked_categories) := by
  have hlikeL : ∀ (q : UserPreferences) (t : ℤ),
      (_update_preferences_from_event hourOf q
        ⟨"like", some c, none, none, none, t, none⟩).liked_categories
      = (if c ∈ q.liked_categories then q.liked_categories
         else q.liked_categories ++ [c]) := by
    intro q t
    simp [_update_preferences_from_event, newLikedCategories, hc]
  have hlikeD : ∀ (q : UserPreferences) (t : ℤ),
      (_update_preferences_from_event hourOf q
        ⟨"like", some c, none, none, none, t, none⟩).disliked_categories
      = (if c ∈ q.disliked_categories then q.disliked_categories.erase c
         else q.disliked_categories) := by
    intro q t
    simp [_update_preferences_from_event, newDislikedCategories, hc]
  have hdisL : ∀ (q : UserPreferences) (t : ℤ),
      (_update_preferences_from_event hourOf q
        ⟨"dislike", some c, none, none, none, t, none⟩).liked_categories
      = q.liked_categories := by
    intro q t
    simp [_update_preferences_from_event, newLikedCategories, hc]
  have hdisD : ∀ (q : UserPreferences) (t : ℤ),
      (_update_preferences_from_event hourOf q
        ⟨"dislike", some c, none, none, none, t, none⟩).disliked_categories
      = (if c ∈ q.disliked_categories then q.disliked_categories
         else q.disliked_categories ++ [c]) := by
    intro q t
    simp [_update_preferences_from_event, newDislikedCategories, hc]
  refine ⟨hlikeL p t₁, hlikeD p t₁, hdisL p t₂, hdisD p t₂, ?_, ?_⟩
  · rw [hdisL, hlikeL]
    by_cases hmem : c ∈ p.liked_categories
    · rw [if_pos hmem]
      exact hmem
    · rw [if_neg hmem]
      simp
  · rw [hdisD]
    by_cases hmem : c ∈ (_update_preferences_from_event hourOf p
        ⟨"like", some c, none, none, none, t₁, none⟩).disliked_categories
    · rw [if_pos hmem]
      exact hmem
    · rw [if_neg hmem]
      simp

/-- C6 witness: like then dislike of "spiritual" on fresh preferences leaves
the category in both sets. -/
theorem like_dislike_learning_witness :
    "spiritual" ∈ (_update_preferences_from_event utcHour
        (_update_preferences_from_event utcHour emptyPrefs
          ⟨"like", some "spiritual", none, none, none, 0, none⟩)
        ⟨"dislike", some "spiritual", none, none, none, 0, none⟩).liked_categories
    ∧ "spiritual" ∈ (_update_preferences_from_event utcHour
        (_update_preferences_from_event utcHour emptyPrefs
          ⟨"like", some "spiritual", none, none, none, 0, none⟩)
        ⟨"dislike", some "spiritual", none, none, none, 0, none⟩).disliked_categories :=
  (like_dislike_learning utcHour emptyPrefs "spiritual" 0 0 (by decide)).2.2.2.2

/-- C7 counterexample: with the active-hours set full and 23 its oldest
member (inserted first), an event whose local hour is 0 does NOT add 0 to
the set — `sorted(...)[-8:]` keeps the 8 numerically largest hours, so the
newly derived hour 0 is evicted immediately while the oldest member 23 is
kept.  Eviction is by numeric value, not by insertion order. -/
theorem active_hours_eviction_counterexample :
    utcHour 0 = 0
    ∧ (_update_preferences_from_event utcHour lateHoursPrefs
        ⟨"view", none, none, none, none, 0, none⟩).active_hours
      = [1, 2, 3, 4, 5, 6, 7, 23]
    ∧ (0 : ℕ) ∉ (_update_preferences_from_event utcHour lateHoursPrefs
        ⟨"view", none, none, none, none, 0, none⟩).active_hours
    ∧ (23 : ℕ) ∈ (_update_preferences_from_event utcHour lateHoursPrefs
        ⟨"view", none, none, none, none, 0, none⟩).active_hours := by
  decide

/-- C7 (amended): every event derives an hour from its timestamp via the
host-local-hour function and updates the bounded active-hours set of cap 8:
if the hour is present the set is unchanged; otherwise the hour is appended
and the list replaced by its ascending sort truncated to the 8 numerically
largest values, so every evicted member is ≤ every kept member (eviction is
by numeric value — possibly evicting the hour just inserted — never by
insertion order); all members stay in 0–23 when the hour function maps into
0–23. -/
theorem active_hours_update (hourOf : ℤ → ℕ) (p : UserPreferences)
    (e : UserEvent) :
    (hourOf e.timestamp ∈ p.active_hours →
      (_update_preferences_from_event hourOf p e).active_hours = p.active_hours)
    ∧ (hourOf e.timestamp ∉ p.active_hours →
      ((_update_preferences_from_event hourOf p e).active_hours.Sorted (· ≤ ·)
      ∧ (_update_preferences_from_event hourOf p e).active_hours.length
          = min (p.active_hours.length + 1) 8
      ∧ (∀ x ∈ (_update_preferences_from_event hourOf p e).active_hours,
          x ∈ hourOf e.timestamp :: p.active_hours)
      ∧ (∀ x ∈ hourOf e.timestamp :: p.active_hours,
          x ∉ (_update_preferences_from_event hourOf p e).active_hours →
          ∀ y ∈ (_update_preferences_from_event hourOf p e).active_hours, x ≤ y)))
    ∧ ((∀ x ∈ p.active_hours, x < 24) → (∀ t, hourOf t < 24) →
      ∀ x ∈ (_update_preferences_from_event hourOf p e).active_hours, x < 24) := by
  have hproj : (_update_preferences_from_event hourOf p e).active_hours
      = newActiveHours hourOf p e.timestamp := rfl
  by_cases hmem : hourOf e.timestamp ∈ p.active_hours
  · have hupd : (_update_preferences_from_event hourOf p e).active_hours
        = p.active_hours := by
      rw [hproj]
      unfold newActiveHours
      rw [if_pos hmem]
    refine ⟨fun _ => hupd, fun hnot => absurd hmem hnot, ?_⟩
    intro hrange _ x hx
    rw [hupd] at hx
    exact hrange x hx
  · set s := List.insertionSort (· ≤ ·) (p.active_hours ++ [hourOf e.timestamp])
      with hs
    have hupd : (_update_preferences_from_event hourOf p e).active_hours
        = s.drop (s.length - 8) := by
      rw [hproj]
      unfold newActiveHours
      rw [if_neg hmem]
    have hsorted : s.Sorted (· ≤ ·) := List.sorted_insertionSort _ _
    have hperm : s.Perm (p.active_hours ++ [hourOf e.timestamp]) :=
      List.perm_insertionSort _ _
    have hslen : s.length = p.active_hours.length + 1 := by
      rw [hperm.length_eq, List.length_append]
      simp
    have hmem_s : ∀ x, x ∈ s ↔ x ∈ hourOf e.timestamp :: p.active_hours := by
      intro x
      rw [hperm.mem_iff]
      simp [or_comm]
    have hsub : ∀ x ∈ s.drop (s.length - 8), x ∈ hourOf e.timestamp :: p.active_hours :=
      fun x hx => (hmem_s x).mp (List.drop_subset _ _ hx)
    refine ⟨fun hcon => absurd hcon hmem, fun _ => ⟨?_, ?_, ?_, ?_⟩, ?_⟩
    · rw [hupd]
      exact List.Pairwise.sublist (List.drop_sublist _ _) hsorted
    · rw [hupd, List.length_drop, hslen]
      omega
    · intro x hx
      rw [hupd] at hx
      exact hsub x hx
    · intro x hxmem hxnot y hy
      rw [hupd] at hxnot hy
      have hxs : x ∈ s := (hmem_s x).mpr hxmem
      have hsplit : s.take (s.length - 8) ++ s.drop (s.length - 8) = s :=
        List.take_append_drop _ s
      have hx_take : x ∈ s.take (s.length - 8) := by
        rcases List.mem_append.mp (by rw [hsplit]; exact hxs) with h1 | h1
        · exact h1
        · exact absurd h1 hxnot
      have hpw : (s.take (s.length - 8) ++ s.drop (s.length - 8)).Pairwise (· ≤ ·) := by
        rw [hsplit]
        exact hsorted
      exact (List.pairwise_append.mp hpw).2.2 x hx_take y hy
    · intro hrange h24 x hx
      rw [hupd] at hx
      rcases List.mem_cons.mp (hsub x hx) with h1 | h1
      · rw [h1]
        exact h24 e.timestamp
      · exact hrange x h1

/-- C7 amended-theorem witness: inserting hour 0 into the full set keeps the
cap: the new set has min(8+1, 8) = 8 members. -/
theorem active_hours_update_witness :
    (_update_preferences_from_event utcHour lateHoursPrefs
      ⟨"view", none, none, none, none, 0, none⟩).active_hours.length
    = min (lateHoursPrefs.active_hours.length + 1) 8 :=
  ((active_hours_update utcHour lateHoursPrefs
      ⟨"view", none, none, none, none, 0, none⟩).2.1 (by decide)).2.1

theorem newPreferredContentTypes_length (p : UserPreferences) (ty : String)
    (ct : Option String) (h : p.preferred_content_types.length ≤ 5) :
    (newPreferredContentTypes p ty ct).length ≤ 5 := by
  cases ct with
  | none => exact h
  | some c =>
      simp only [newPreferredContentTypes]
      by_cases hc : c = ""
      · rw [if_pos hc]
        exact h
      · rw [if_neg hc]
        by_cases hty : ty = "view" ∨ ty = "click"
        · rw [if_pos hty]
          by_cases hmem : c ∈ p.preferred_content_types
          · rw [if_pos hmem]
            exact h
          · rw [if_neg hmem]
            show ((p.preferred_content_types ++ [c]).drop
              ((p.preferred_content_types ++ [c]).length - 5)).length ≤ 5
            rw [List.length_drop]
            omega
        · rw [if_neg hty]
          exact h

theorem newPreferredSources_length (p : UserPreferences) (ty : String)
    (src : Option String) (h : p.preferred_sources.length ≤ 5) :
    (newPreferredSources p ty src).length ≤ 5 := by
  cases src with
  | none => exact h
  | some c =>
      simp only [newPreferredSources]
      by_cases hc : c = ""
      · rw [if_pos hc]
        exact h
      · rw [if_neg hc]
        by_cases hty : ty = "view" ∨ ty = "click" ∨ ty = "like"
        · rw [if_pos hty]
          by_cases hmem : c ∈ p.preferred_sources
          · rw [if_pos hmem]
            exact h
          · rw [if_neg hmem]
            show ((p.preferred_sources ++ [c]).drop
              ((p.preferred_sources ++ [c]).length - 5)).length ≤ 5
            rw [List.length_drop]
            omega
        · rw [if_neg hty]
          exact h

theorem newActiveHours_length (hourOf : ℤ → ℕ) (p : UserPreferences) (ts : ℤ)
    (h : p.active_hours.length ≤ 8) : (newActiveHours hourOf p ts).length ≤ 8 := by
  show (if hourOf ts ∈ p.active_hours then p.active_hours
    else (List.insertionSort (· ≤ ·) (p.active_hours ++ [hourOf ts])).drop
      ((List.insertionSort (· ≤ ·) (p.active_hours ++ [hourOf ts])).length - 8)).length ≤ 8
  by_cases hm : hourOf ts ∈ p.active_hours
  · rw [if_pos hm]
    exact h
  · rw [if_neg hm]
    rw [List.length_drop]
    omega

theorem applyEvent_inv (hourOf : ℤ → ℕ) (u : UserIntelligence) (e : UserEvent)
    (h : boundedCapsInv u) : boundedCapsInv (applyEvent hourOf u e) := by
  obtain ⟨h1, h2, h3, h4, h5⟩ := h
  refine ⟨newPreferredContentTypes_length _ _ _ h1,
    newPreferredSources_length _ _ _ h2, newActiveHours_length _ _ _ h3, h4, ?_⟩
  show (clipRecent (u.recent_events ++ [e])).length ≤ 100
  rw [clipRecent_eq_drop, List.length_drop]
  omega

theorem foldl_events_inv (hourOf : ℤ → ℕ) :
    ∀ (es : List UserEvent) (u : UserIntelligence), boundedCapsInv u →
    boundedCapsInv (es.foldl (applyEvent hourOf) u)
  | [], _, h => h
  | e :: es, u, h => foldl_events_inv hourOf es _ (applyEvent_inv hourOf u e h)

theorem applyOp_inv (hourOf : ℤ → ℕ) (u : UserIntelligence) (op : StoreOp)
    (h : boundedCapsInv u) : boundedCapsInv (applyOp hourOf u op) := by
  cases op with
  | addEvents es => exact foldl_events_inv hourOf es u h
  | recordFeedback sc fb => exact h
  | updateScenario sc =>
      obtain ⟨h1, h2, h3, h4, h5⟩ := h
      refine ⟨h1, h2, h3, ?_, h5⟩
      show (if (u.scenario_history ++ [sc]).length > 20
        then (u.scenario_history ++ [sc]).drop ((u.scenario_history ++ [sc]).length - 20)
        else u.scenario_history ++ [sc]).length ≤ 20
      split_ifs with hgt
      · rw [List.length_drop]
        omega
      · simp only [List.length_append] at hgt ⊢
        omega

/-- C8: after any sequence of store operations on a freshly created profile,
the bounded collections never exceed their caps (content types 5, sources 5,
active hours 8, scenario history 20, recent-events ring buffer 100); each
single operation preserves the invariant from any state satisfying it. -/
theorem store_bounded_caps (hourOf : ℤ → ℕ) :
    (∀ (u : UserIntelligence) (op : StoreOp),
      boundedCapsInv u → boundedCapsInv (applyOp hourOf u op))
    ∧ ∀ (now : ℤ) (ops : List StoreOp),
      boundedCapsInv (ops.foldl (applyOp hourOf) (freshUser now)) := by
  refine ⟨applyOp_inv hourOf, ?_⟩
  intro now ops
  have hfold : ∀ (ops : List StoreOp) (u : UserIntelligence), boundedCapsInv u →
      boundedCapsInv (ops.foldl (applyOp hourOf) u) := by
    intro ops
    induction ops with
    | nil => exact fun _ h => h
    | cons op ops ih => exact fun u h => ih _ (applyOp_inv hourOf u op h)
  refine hfold ops _ ?_
  simp [boundedCapsInv, freshUser, emptyPrefs]

/-- C8 witness: a scenario update on a fresh profile keeps every cap. -/
theorem store_bounded_caps_witness :
    boundedCapsInv (applyOp utcHour (freshUser 0)
      (StoreOp.updateScenario "morning_devotee")) :=
  (store_bounded_caps utcHour).1 (freshUser 0)
    (StoreOp.updateScenario "morning_devotee") (by decide)

/-- C9 (amended): the engagement score reported by `get_intelligence_summary`
equals `round(min(1, 0.3*(events/100) + 0.3*(likes/20) + 0.4*(sessions/10)), 2)`
— the formula rounded to two decimals — while the personalization level is
derived from the unrounded score: "low" when ≤ 0.3, "medium" when in
(0.3, 0.7], "high" when > 0.7; in particular 100 events, 20 likes and 10
sessions give a reported score of exactly 1.0 and level "high". -/
theorem engagement_score_and_level (now : ℤ) (u : UserIntelligence) :
    ((get_intelligence_summary now u).engagement_score
      = round2 (min 1 ((u.total_events : ℚ) / 100 * (3/10)
        + (u.total_likes : ℚ) / 20 * (3/10)
        + (u.preferences.total_sessions : ℚ) / 10 * (2/5))))
    ∧ (min 1 ((u.total_events : ℚ) / 100 * (3/10)
        + (u.total_likes : ℚ) / 20 * (3/10)
        + (u.preferences.total_sessions : ℚ) / 10 * (2/5)) ≤ 3/10 →
      (get_intelligence_summary now u).personalization_level = "low")
    ∧ (3/10 < min 1 ((u.total_events : ℚ) / 100 * (3/10)
        + (u.total_likes : ℚ) / 20 * (3/10)
        + (u.preferences.total_sessions : ℚ) / 10 * (2/5)) →
      min 1 ((u.total_events : ℚ) / 100 * (3/10)
        + (u.total_likes : ℚ) / 20 * (3/10)
        + (u.preferences.total_sessions : ℚ) / 10 * (2/5)) ≤ 7/10 →
      (get_intelligence_summary now u).personalization_level = "medium")
    ∧ (7/10 < min 1 ((u.total_events : ℚ) / 100 * (3/10)
        + (u.total_likes : ℚ) / 20 * (3/10)
        + (u.preferences.total_sessions : ℚ) / 10 * (2/5)) →
      (get_intelligence_summary now u).personalization_level = "high")
    ∧ (u.total_events = 100 → u.total_likes = 20 →
      u.preferences.total_sessions = 10 →
      (get_intelligence_summary now u).engagement_score = 1
      ∧ (get_intelligence_summary now u).personalization_level = "high") := by
  have hlevel : (get_intelligence_summary now u).personalization_level
      = (if min 1 ((u.total_events : ℚ) / 100 * (3/10)
          + (u.total_likes : ℚ) / 20 * (3/10)
          + (u.preferences.total_sessions : ℚ) / 10 * (2/5)) > 7/10 then "high"
         else if min 1 ((u.total_events : ℚ) / 100 * (3/10)
          + (u.total_likes : ℚ) / 20 * (3/10)
          + (u.preferences.total_sessions : ℚ) / 10 * (2/5)) > 3/10 then "medium"
         else "low") := rfl
  refine ⟨rfl, ?_, ?_, ?_, ?_⟩
  · intro hle
    rw [hlevel, if_neg (not_lt.mpr (hle.trans (by norm_num))),
      if_neg (not_lt.mpr hle)]
  · intro h1 h2
    rw [hlevel, if_neg (not_lt.mpr h2), if_pos h1]
  · intro h1
    rw [hlevel, if_pos h1]
  · intro he hl hs
    have hE : min (1:ℚ) ((u.total_events : ℚ) / 100 * (3/10)
        + (u.total_likes : ℚ) / 20 * (3/10)
        + (u.preferences.total_sessions : ℚ) / 10 * (2/5)) = 1 := by
      rw [he, hl, hs]
      norm_num
    constructor
    · show round2 (min 1 ((u.total_events : ℚ) / 100 * (3/10)
        + (u.total_likes : ℚ) / 20 * (3/10)
        + (u.preferences.total_sessions : ℚ) / 10 * (2/5))) = 1
      rw [hE]
      unfold round2 roundHalfEven
      norm_num
    · rw [hlevel, hE, if_pos (by norm_num : (1:ℚ) > 7/10)]

/-- C9 witness: the 100/20/10 example reports 1.0 and "high". -/
theorem engagement_score_and_level_witness :
    (get_intelligence_summary 0 exampleUser).engagement_score = 1
    ∧ (get_intelligence_summary 0 exampleUser).personalization_level = "high" :=
  (engagement_score_and_level 0 exampleUser).2.2.2.2 rfl rfl rfl

/-- C9 counterexample: with a single event the raw formula gives 0.003, but
the summary reports `round(0.003, 2) = 0.0`, so the reported score does not
equal the formula. -/
theorem engagement_rounding_counterexample :
    (get_intelligence_summary 0 oneEventUser).engagement_score
      ≠ min 1 ((oneEventUser.total_events : ℚ) / 100 * (3/10)
        + (oneEventUser.total_likes : ℚ) / 20 * (3/10)
        + (oneEventUser.preferences.total_sessions : ℚ) / 10 * (2/5)) := by
  have hval : (((1:ℕ) : ℚ) / 100 * (3/10) + ((0:ℕ) : ℚ) / 20 * (3/10)
      + ((0:ℕ) : ℚ) / 10 * (2/5)) = 3/1000 := by
    push_cast
    norm_num
  have hmin : min (1:ℚ) (((1:ℕ) : ℚ) / 100 * (3/10) + ((0:ℕ) : ℚ) / 20 * (3/10)
      + ((0:ℕ) : ℚ) / 10 * (2/5)) = 3/1000 := by
    rw [hval]
    exact min_eq_right (by norm_num)
  have hL : (get_intelligence_summary 0 oneEventUser).engagement_score = 0 := by
    show round2 (min (1:ℚ) (((1:ℕ) : ℚ) / 100 * (3/10) + ((0:ℕ) : ℚ) / 20 * (3/10)
      + ((0:ℕ) : ℚ) / 10 * (2/5))) = 0
    rw [hmin]
    unfold round2 roundHalfEven
    norm_num
  have hR : min (1:ℚ) ((oneEventUser.total_events : ℚ) / 100 * (3/10)
      + (oneEventUser.total_likes : ℚ) / 20 * (3/10)
      + (oneEventUser.preferences.total_sessions : ℚ) / 10 * (2/5)) = 3/1000 := hmin
  rw [hL, hR]
  norm_num

theorem newPreferredContentTypes_nodup (p : UserPreferences) (ty : String)
    (ct : Option String) (h : p.preferred_content_types.Nodup) :
    (newPreferredContentTypes p ty ct).Nodup := by
  cases ct with
  | none => exact h
  | some c =>
      simp only [newPreferredContentTypes]
      by_cases hc : c = ""
      · rw [if_pos hc]
        exact h
      · rw [if_neg hc]
        by_cases hty : ty = "view" ∨ ty = "click"
        · rw [if_pos hty]
          by_cases hmem : c ∈ p.preferred_content_types
          · rw [if_pos hmem]
            exact h
          · rw [if_neg hmem]
            show ((p.preferred_content_types ++ [c]).drop
              ((p.preferred_content_types ++ [c]).length - 5)).Nodup
            refine List.Nodup.sublist (List.drop_sublist _ _) ?_
            rw [← List.concat_eq_append]
            exact List.Nodup.concat hmem h
        · rw [if_neg hty]
          exact h

theorem newPreferredSources_nodup (p : UserPreferences) (ty : String)
    (src : Option String) (h : p.preferred_sources.Nodup) :
    (newPreferredSources p ty src).Nodup := by
  cases src with
  | none => exact h
  | some c =>
      simp only [newPreferredSources]
      by_cases hc : c = ""
      · rw [if_pos hc]
        exact h
      · rw [if_neg hc]
        by_cases hty : ty = "view" ∨ ty = "click" ∨ ty = "like"
        · rw [if_pos hty]
          by_cases hmem : c ∈ p.preferred_sources
          · rw [if_pos hmem]
            exact h
          · rw [if_neg hmem]
            show ((p.preferred_sources ++ [c]).drop
              ((p.preferred_sources ++ [c]).length - 5)).Nodup
            refine List.Nodup.sublist (List.drop_sublist _ _) ?_
            rw [← List.concat_eq_append]
            exact List.Nodup.concat hmem h
        · rw [if_neg hty]
          exact h

theorem foldl_events_nodup (hourOf : ℤ → ℕ) :
    ∀ (es : List UserEvent) (u : UserIntelligence),
    u.preferences.preferred_content_types.Nodup →
    u.preferences.preferred_sources.Nodup →
    ((es.foldl (applyEvent hourOf) u)).preferences.preferred_content_types.Nodup
    ∧ ((es.foldl (applyEvent hourOf) u)).preferences.preferred_sources.Nodup
  | [], _, h1, h2 => ⟨h1, h2⟩
  | e :: es, u, h1, h2 =>
      foldl_events_nodup hourOf es (applyEvent hourOf u e)
        (newPreferredContentTypes_nodup _ _ _ h1)
        (newPreferredSources_nodup _ _ _ h2)

/-- C10: the preferred-content-types and preferred-sources lists never hold
duplicates: an event whose content type (resp. source) is already present
leaves the list completely unchanged (no re-append, no recency refresh), a
single learning step preserves freedom from duplicates, and any event
sequence applied to a fresh profile yields duplicate-free lists. -/
theorem preferred_lists_nodup (hourOf : ℤ → ℕ) (t : ℤ) (p : UserPreferences)
    (e : UserEvent) (es : List UserEvent) :
    (∀ ct, e.content_type = some ct → ct ∈ p.preferred_content_types →
      (_update_preferences_from_event hourOf p e).preferred_content_types
        = p.preferred_content_types)
    ∧ (∀ src, e.source = some src → src ∈ p.preferred_sources →
      (_update_preferences_from_event hourOf p e).preferred_sources
        = p.preferred_sources)
    ∧ (p.preferred_content_types.Nodup →
      (_update_preferences_from_event hourOf p e).preferred_content_types.Nodup)
    ∧ (p.preferred_sources.Nodup →
      (_update_preferences_from_event hourOf p e).preferred_sources.Nodup)
    ∧ ((es.foldl (applyEvent hourOf)
          (freshUser t)).preferences.preferred_content_types.Nodup
      ∧ (es.foldl (applyEvent hourOf)
          (freshUser t)).preferences.preferred_sources.Nodup) := by
  refine ⟨?_, ?_, newPreferredContentTypes_nodup _ _ _,
    newPreferredSources_nodup _ _ _,
    foldl_events_nodup hourOf es (freshUser t) List.nodup_nil List.nodup_nil⟩
  · intro ct hct hmem
    show newPreferredContentTypes p e.event_type e.content_type
      = p.preferred_content_types
    rw [hct]
    simp only [newPreferredContentTypes]
    split_ifs <;> rfl
  · intro src hsrc hmem
    show newPreferredSources p e.event_type e.source = p.preferred_sources
    rw [hsrc]
    simp only [newPreferredSources]
    split_ifs <;> rfl

/-- C10 witness: a view event whose content type "video" is already present
leaves the preferred-content-types list unchanged. -/
theorem preferred_lists_nodup_witness :
    (_update_preferences_from_event utcHour videoPrefs
      ⟨"view", none, some "video", none, none, 0, none⟩).preferred_content_types
    = videoPrefs.preferred_content_types :=
  (preferred_lists_nodup utcHour 0 videoPrefs
      ⟨"view", none, some "video", none, none, 0, none⟩ []).1
    "video" rfl (by decide)
